import Mathlib

/-!
# A verification development for `flyd` (src/src/main.rs)

`flyd` is a small HTTP-to-HTTP forwarding proxy built on actix-web and
reqwest.  This file gives a shallow embedding of its request-translation
and forwarding logic as pure Lean functions and proves the specified
properties about them.

Modelling conventions:

* JSON values are the inductive `Json` below.  `serde_json` numbers are
  modelled as `Int` (their numeric content is opaque to this system:
  it never inspects a number).  JSON objects are association lists of
  key/value pairs; the proxy never produces duplicate keys itself, and the
  theorems compare objects up to permutation of their fields where order
  is not determined by the code.
* Header values are byte lists (`List Nat`, each entry a byte).
* External effects are inputs to the handler functions:
  - the outcome of the single upstream HTTP exchange is an
    `UpstreamOutcome` argument (transport error, or a response whose body
    either parses as JSON or fails with an error message);
  - for the listing handler, the outcome of `reqwest::Url::parse` on the
    constructed URL string is an `Except String Unit` argument (the `url`
    crate is an external collaborator; only success/failure and the error
    text matter to the handler).
* Each handler returns a `HandlerResult`: the upstream request it
  attempted to send, if any, together with the caller-facing response.
-/

/-- JSON values, as produced by `serde_json`.  Objects are field lists. -/
inductive Json where
  | null
  | bool (b : Bool)
  | num (n : Int)
  | str (s : String)
  | arr (xs : List Json)
  | obj (fields : List (String × Json))

/-- The field list of a JSON object. -/
abbrev JsonFields := List (String × Json)

/-- Body of a caller-facing HTTP response: plain text (all error paths)
or a JSON document (the 200 path, `HttpResponse::Ok().json(..)`). -/
inductive RespBody where
  | text (s : String)
  | json (j : Json)

/-- A caller-facing HTTP response: status code and body. -/
structure HttpResponse where
  status : Nat
  body : RespBody

/-- The outbound header map built by `prepare_request`: it holds exactly
the `AUTHORIZATION` entry (raw bytes) and the `CONTENT_TYPE` entry. -/
structure HeaderMap where
  authorization : List Nat
  contentType : String

/-- HTTP method of the outbound request. -/
inductive MethodKind where
  | get
  | post

/-- The request sent upstream: method, URL string (host and path as
formatted by the handler), appended query pairs, headers, optional JSON
body. -/
structure OutboundRequest where
  method : MethodKind
  url : String
  queryPairs : List (String × String)
  headers : HeaderMap
  body : Option Json

/-- Outcome of the single upstream HTTP exchange, as seen by the handler:
either the transport failed with an error (`send().await` returned `Err`),
or a response arrived and reading its body as JSON
(`response.json::<serde_json::Value>()`) either produced a value or failed
with an error message.  The upstream HTTP status code is carried but, as
the source shows, never consulted. -/
inductive UpstreamOutcome where
  | transportError (e : String)
  | response (status : Nat) (bodyJson : Except String Json)

/-- What a handler did: the upstream request it attempted (if any) and the
caller-facing response. -/
structure HandlerResult where
  upstreamCall : Option OutboundRequest
  response : HttpResponse

/-- Validity of a single byte in an HTTP header value, per the `http`
crate's `HeaderValue::from_bytes`: horizontal tab, or a visible/obs-text
byte (32..=255 except DEL). -/
def isValidHeaderByte (b : Nat) : Bool :=
  b == 9 || (32 ≤ b && b ≤ 255 && b != 127)

/-- `HeaderValue::from_bytes` succeeds iff every byte is valid. -/
def validHeaderBytes (bs : List Nat) : Bool :=
  bs.all isValidHeaderByte

/-- The internal upstream host, chosen when `use_private_api` is set. -/
def privateApiHost : String := "http://fly-api.internal:4280"

/-- The public upstream host, the default. -/
def publicApiHost : String := "https://api.machines.dev"

/-- The host selection of `prepare_request` (main.rs:51-55): the fixed
internal address when `use_private` is set, else the fixed public one. -/
def apiHostname (use_private : Bool) : String :=
  if use_private then privateApiHost else publicApiHost

/-- `prepare_request` (main.rs:34-58): extract the authorization header
(else 401), re-encode it as an outbound header value (failure yields 500
with the `InvalidHeaderValue` display text), set content-type, and pick
the upstream host from the `use_private` flag. -/
def prepare_request (auth : Option (List Nat)) (use_private : Bool) :
    Except HttpResponse (HeaderMap × String) :=
  match auth with
  | none => .error ⟨401, .text "Authorization header required"⟩
  | some bytes =>
    if validHeaderBytes bytes then
      .ok (⟨bytes, "application/json"⟩, apiHostname use_private)
    else
      .error ⟨500, .text "failed to parse header value"⟩

/-- `MachineConfig` (main.rs:16-22): optional `name` and `region`, and a
`#[serde(flatten)]` catch-all for every other field.  The flattened
remainder is always a JSON object map when produced by deserialization,
so it is modelled as a field list. -/
structure MachineConfig where
  name : Option String
  region : Option String
  other : JsonFields

/-- `NewMachineRequest` (main.rs:7-14): `app_name`, defaulted
`use_private_api`, and the flattened `MachineConfig`. -/
structure NewMachineRequest where
  app_name : String
  use_private_api : Bool
  config : MachineConfig

/-- `ListMachinesRequest` (main.rs:24-32): `app_name`, defaulted
`use_private_api` and `include_deleted`, optional `region`. -/
structure ListMachinesRequest where
  app_name : String
  use_private_api : Bool
  include_deleted : Bool
  region : Option String

/-- serde deserialization of an `Option<String>` field: absent or `null`
gives `none`, a string gives `some`, any other value is a type error. -/
def deserOptString : Option Json → Option (Option String)
  | none => some none
  | some .null => some none
  | some (.str s) => some (some s)
  | some _ => none

/-- serde deserialization of a `#[serde(default)] bool` field: absent
gives `false`, a boolean gives its value, any other value (including
`null`) is a type error. -/
def deserDefaultBool : Option Json → Option Bool
  | none => some false
  | some (.bool b) => some b
  | some _ => none

/-- The field names consumed by the struct fields of `NewMachineRequest`
and the named fields of the flattened `MachineConfig`; every other field
lands in `MachineConfig.other`. -/
def machineKnownKeys : List String :=
  ["app_name", "use_private_api", "name", "region"]

/-- serde deserialization of `NewMachineRequest` from a JSON value (the
`web::Json` extractor): the value must be an object; `app_name` must be a
string; `use_private_api` is a defaulted bool; the remaining fields feed
the flattened `MachineConfig`, whose `name` and `region` are optional
strings and whose `other` collects everything else. -/
def deserNewMachineRequest (j : Json) : Option NewMachineRequest :=
  match j with
  | .obj fields =>
    match List.lookup "app_name" fields with
    | some (.str app) =>
      match deserDefaultBool (List.lookup "use_private_api" fields) with
      | some upa =>
        match deserOptString (List.lookup "name" fields),
              deserOptString (List.lookup "region" fields) with
        | some nm, some rg =>
          some ⟨app, upa,
            ⟨nm, rg, fields.filter (fun kv => !(machineKnownKeys.contains kv.1))⟩⟩
        | _, _ => none
      | none => none
    | _ => none
  | _ => none

/-- serde serialization of an `Option<String>` field (no
`skip_serializing_if`): `none` becomes JSON `null`. -/
def optStringToJson : Option String → Json
  | none => Json.null
  | some s => Json.str s

/-- `serde_json::to_value(&body.config)` (main.rs:71): `MachineConfig`
serializes its `name` and `region` fields (emitting `null` when absent)
and then the flattened remainder.  With `other` a field list the
serialization is total, so the `unwrap_or_default` fallback to
`Value::Null` is never taken. -/
def serializeMachineConfig (c : MachineConfig) : Json :=
  .obj (("name", optStringToJson c.name) ::
        ("region", optStringToJson c.region) :: c.other)

/-- serde deserialization of a `#[serde(default)] bool` query parameter
(`serde_urlencoded`): absent gives `false`, `"true"`/`"false"` parse,
anything else is an error. -/
def parseQueryBool : Option String → Option Bool
  | none => some false
  | some s => if s = "true" then some true
              else if s = "false" then some false
              else none

/-- serde deserialization of `ListMachinesRequest` from the query pairs
(the `web::Query` extractor): `app_name` is required, the two flags are
defaulted bools, `region` is optional, unknown parameters are ignored. -/
def deserListMachinesRequest (params : List (String × String)) :
    Option ListMachinesRequest :=
  match List.lookup "app_name" params with
  | none => none
  | some app =>
    match parseQueryBool (List.lookup "use_private_api" params),
          parseQueryBool (List.lookup "include_deleted" params) with
    | some upa, some inc => some ⟨app, upa, inc, List.lookup "region" params⟩
    | _, _ => none

/-- `create_machine` (main.rs:60-97), after the `web::Json` extractor has
produced `body`: prepare headers and host (early-return on failure),
serialize the config, format the URL, send, then relay the parsed JSON
body as 200 or map the failure to 500. -/
def create_machine (auth : Option (List Nat)) (body : NewMachineRequest)
    (upstream : UpstreamOutcome) : HandlerResult :=
  match prepare_request auth body.use_private_api with
  | .error resp => ⟨none, resp⟩
  | .ok (headers, api_hostname) =>
    let config := serializeMachineConfig body.config
    let url := api_hostname ++ "/v1/apps/" ++ body.app_name ++ "/machines"
    let outbound : OutboundRequest := ⟨.post, url, [], headers, some config⟩
    match upstream with
    | .transportError e =>
      ⟨some outbound, ⟨500, .text ("API request failed: " ++ e)⟩⟩
    | .response _ (.error e) =>
      ⟨some outbound, ⟨500, .text ("Failed to read response body: " ++ e)⟩⟩
    | .response _ (.ok j) =>
      ⟨some outbound, ⟨200, .json j⟩⟩

/-- `list_machines` (main.rs:99-146), after the `web::Query` extractor has
produced `query`: prepare headers and host, parse the formatted URL
(early-return 500 on failure, before any send), append `include_deleted`
and `region` query pairs only when present, send, then relay the parsed
JSON body as 200 or map the failure to 500. -/
def list_machines (auth : Option (List Nat)) (query : ListMachinesRequest)
    (urlParsed : Except String Unit) (upstream : UpstreamOutcome) :
    HandlerResult :=
  match prepare_request auth query.use_private_api with
  | .error resp => ⟨none, resp⟩
  | .ok (headers, api_hostname) =>
    match urlParsed with
    | .error e => ⟨none, ⟨500, .text ("Failed to parse URL: " ++ e)⟩⟩
    | .ok _ =>
      let url := api_hostname ++ "/v1/apps/" ++ query.app_name ++ "/machines"
      let pairs :=
        (if query.include_deleted then [("include_deleted", "true")] else []) ++
        (match query.region with
         | some region => [("region", region)]
         | none => [])
      let outbound : OutboundRequest := ⟨.get, url, pairs, headers, none⟩
      match upstream with
      | .transportError e =>
        ⟨some outbound, ⟨500, .text ("API request failed: " ++ e)⟩⟩
      | .response _ (.error e) =>
        ⟨some outbound, ⟨500, .text ("Failed to read response body: " ++ e)⟩⟩
      | .response _ (.ok j) =>
        ⟨some outbound, ⟨200, .json j⟩⟩

/-- The `POST /v0/machines/new` route as the caller sees it: the
`web::Json<NewMachineRequest>` extractor runs first.  A body that is not
valid JSON (`.error`) or does not deserialize is rejected with the
extractor's 400 response before the handler runs; only then does
`create_machine` run.  (The 400 body is the extractor's error display
text; only its status matters to the properties below.) -/
def create_machine_route (auth : Option (List Nat))
    (rawBody : Except String Json) (upstream : UpstreamOutcome) :
    HandlerResult :=
  match rawBody with
  | .error _ => ⟨none, ⟨400, .text "Json deserialize error"⟩⟩
  | .ok j =>
    match deserNewMachineRequest j with
    | none => ⟨none, ⟨400, .text "Json deserialize error"⟩⟩
    | some body => create_machine auth body upstream

/-- The `GET /v0/machines/list` route as the caller sees it: the
`web::Query<ListMachinesRequest>` extractor runs first and rejects an
undeserializable query string with 400 before the handler runs. -/
def list_machines_route (auth : Option (List Nat))
    (params : List (String × String)) (urlParsed : Except String Unit)
    (upstream : UpstreamOutcome) : HandlerResult :=
  match deserListMachinesRequest params with
  | none => ⟨none, ⟨400, .text "Query deserialize error"⟩⟩
  | some query => list_machines auth query urlParsed upstream

/-- `GET /` (main.rs:148-151). -/
def hello : HttpResponse := ⟨200, .text "flyd!"⟩

/-- `GET /health` (main.rs:153-156). -/
def health_check : HttpResponse := ⟨200, .text "YES!"⟩

/-! ## Factored forms of the handler outcomes

The two handlers duplicate their forwarding code; the lemmas below factor
the common shapes so the per-claim theorems can reuse them. -/

/-- The outbound request built by `create_machine` once translation
succeeded. -/
def createOutbound (bytes : List Nat) (req : NewMachineRequest) :
    OutboundRequest :=
  ⟨.post, apiHostname req.use_private_api ++ "/v1/apps/" ++ req.app_name ++ "/machines",
   [], ⟨bytes, "application/json"⟩, some (serializeMachineConfig req.config)⟩

/-- The query pairs appended by `list_machines` (main.rs:120-129). -/
def listQueryPairs (q : ListMachinesRequest) : List (String × String) :=
  (if q.include_deleted then [("include_deleted", "true")] else []) ++
  (match q.region with
   | some region => [("region", region)]
   | none => [])

/-- The outbound request built by `list_machines` once translation and
URL parsing succeeded. -/
def listOutbound (bytes : List Nat) (q : ListMachinesRequest) :
    OutboundRequest :=
  ⟨.get, apiHostname q.use_private_api ++ "/v1/apps/" ++ q.app_name ++ "/machines",
   listQueryPairs q, ⟨bytes, "application/json"⟩, none⟩

/-- The caller-facing response both handlers derive from the upstream
outcome once the request was sent. -/
def relayUpstream : UpstreamOutcome → HttpResponse
  | .transportError e => ⟨500, .text ("API request failed: " ++ e)⟩
  | .response _ (.error e) => ⟨500, .text ("Failed to read response body: " ++ e)⟩
  | .response _ (.ok j) => ⟨200, .json j⟩

theorem create_machine_eq (bytes : List Nat) (req : NewMachineRequest)
    (u : UpstreamOutcome) (hv : validHeaderBytes bytes = true) :
    create_machine (some bytes) req u =
      ⟨some (createOutbound bytes req), relayUpstream u⟩ := by
  cases u with
  | transportError e =>
    simp [create_machine, prepare_request, hv, createOutbound, relayUpstream]
  | response st b =>
    cases b <;>
      simp [create_machine, prepare_request, hv, createOutbound, relayUpstream]

theorem list_machines_eq (bytes : List Nat) (q : ListMachinesRequest)
    (u : UpstreamOutcome) (hv : validHeaderBytes bytes = true) :
    list_machines (some bytes) q (.ok ()) u =
      ⟨some (listOutbound bytes q), relayUpstream u⟩ := by
  cases u with
  | transportError e =>
    simp [list_machines, prepare_request, hv, listOutbound, listQueryPairs,
      relayUpstream]
  | response st b =>
    cases b <;>
      simp [list_machines, prepare_request, hv, listOutbound, listQueryPairs,
        relayUpstream]

theorem create_machine_invalid_bytes (bytes : List Nat)
    (req : NewMachineRequest) (u : UpstreamOutcome)
    (hv : validHeaderBytes bytes = false) :
    create_machine (some bytes) req u =
      ⟨none, ⟨500, .text "failed to parse header value"⟩⟩ := by
  simp [create_machine, prepare_request, hv]

theorem list_machines_invalid_bytes (bytes : List Nat)
    (q : ListMachinesRequest) (urlParsed : Except String Unit)
    (u : UpstreamOutcome) (hv : validHeaderBytes bytes = false) :
    list_machines (some bytes) q urlParsed u =
      ⟨none, ⟨500, .text "failed to parse header value"⟩⟩ := by
  simp [list_machines, prepare_request, hv]

theorem list_machines_bad_url (bytes : List Nat) (q : ListMachinesRequest)
    (e : String) (u : UpstreamOutcome) (hv : validHeaderBytes bytes = true) :
    list_machines (some bytes) q (.error e) u =
      ⟨none, ⟨500, .text ("Failed to parse URL: " ++ e)⟩⟩ := by
  simp [list_machines, prepare_request, hv]

/-- If an optional-string field deserialized successfully, re-serializing
it reproduces the original field value, with `null` standing in for an
absent field. -/
theorem deserOptString_getD (o : Option Json) (s : Option String)
    (h : deserOptString o = some s) :
    optStringToJson s = o.getD Json.null := by
  cases o with
  | none =>
    simp [deserOptString] at h; subst h; rfl
  | some j =>
    cases j with
    | null => simp [deserOptString] at h; subst h; rfl
    | str t => simp [deserOptString] at h; subst h; rfl
    | bool b => simp [deserOptString] at h
    | num n => simp [deserOptString] at h
    | arr xs => simp [deserOptString] at h
    | obj fs => simp [deserOptString] at h

/-- If a creation body deserialized successfully, the serialized outbound
configuration is the input's fields minus the consumed keys, preceded by
`name` and `region` entries that carry the input value or `null`. -/
theorem deser_config_serialization (fields : JsonFields)
    (req : NewMachineRequest)
    (hd : deserNewMachineRequest (Json.obj fields) = some req) :
    serializeMachineConfig req.config =
      Json.obj (("name", (List.lookup "name" fields).getD Json.null) ::
                ("region", (List.lookup "region" fields).getD Json.null) ::
                fields.filter (fun kv => !(machineKnownKeys.contains kv.1))) := by
  rw [deserNewMachineRequest] at hd
  split at hd
  case _ app heq =>
    split at hd
    case _ upa hupa =>
      split at hd
      case _ nm rg hnm hrg =>
        cases hd
        simp [serializeMachineConfig, deserOptString_getD _ _ hnm,
          deserOptString_getD _ _ hrg]
      case _ => exact absurd hd (by simp)
    case _ => exact absurd hd (by simp)
  case _ => exact absurd hd (by simp)

/-- Whenever the creation route attempted an upstream call, its header map
is exactly the authorization bytes plus the JSON content type. -/
theorem create_route_call_headers (bytes : List Nat)
    (rawBody : Except String Json) (u : UpstreamOutcome)
    (ob : OutboundRequest)
    (h : (create_machine_route (some bytes) rawBody u).upstreamCall = some ob) :
    ob.headers = ⟨bytes, "application/json"⟩ := by
  rcases rawBody with e | j
  · simp [create_machine_route] at h
  · simp only [create_machine_route] at h
    split at h
    · simp at h
    · rename_i req hd
      rcases hv : validHeaderBytes bytes with _ | _
      · rw [create_machine_invalid_bytes _ _ _ hv] at h; simp at h
      · rw [create_machine_eq _ _ _ hv] at h
        simp at h
        subst h
        rfl

/-- Whenever the listing route attempted an upstream call, its header map
is exactly the authorization bytes plus the JSON content type. -/
theorem list_route_call_headers (bytes : List Nat)
    (params : List (String × String)) (urlParsed : Except String Unit)
    (u : UpstreamOutcome) (ob : OutboundRequest)
    (h : (list_machines_route (some bytes) params urlParsed u).upstreamCall =
      some ob) :
    ob.headers = ⟨bytes, "application/json"⟩ := by
  simp only [list_machines_route] at h
  split at h
  · simp at h
  · rename_i q hq
    rcases hv : validHeaderBytes bytes with _ | _
    · rw [list_machines_invalid_bytes _ _ _ _ hv] at h; simp at h
    · rcases urlParsed with e | u0
      · rw [list_machines_bad_url _ _ _ _ hv] at h; simp at h
      · cases u0
        rw [list_machines_eq _ _ _ hv] at h
        simp at h
        subst h
        rfl

/-! ## Claim theorems -/

/-- C1: for every inbound request to either operation (one whose
body/query deserializes, so the handler runs) that lacks an authorization
header, the response is HTTP 401 with the "Authorization header required"
text and no upstream call is made. -/
theorem noAuthHeader_gives_401_and_no_upstream_call
    (rawBody : Json) (req : NewMachineRequest)
    (params : List (String × String)) (q : ListMachinesRequest)
    (urlParsed : Except String Unit) (u₁ u₂ : UpstreamOutcome)
    (hb : deserNewMachineRequest rawBody = some req)
    (hq : deserListMachinesRequest params = some q) :
    create_machine_route none (.ok rawBody) u₁ =
      ⟨none, ⟨401, .text "Authorization header required"⟩⟩ ∧
    list_machines_route none params urlParsed u₂ =
      ⟨none, ⟨401, .text "Authorization header required"⟩⟩ := by
  constructor
  · simp [create_machine_route, hb, create_machine, prepare_request]
  · simp [list_machines_route, hq, list_machines, prepare_request]

/-- Witness for C1 at a concrete request. -/
theorem noAuthHeader_witness :
    create_machine_route none (.ok (Json.obj [("app_name", Json.str "myapp")]))
        (.response 200 (.ok Json.null)) =
      ⟨none, ⟨401, .text "Authorization header required"⟩⟩ ∧
    list_machines_route none [("app_name", "myapp")] (.ok ())
        (.response 200 (.ok Json.null)) =
      ⟨none, ⟨401, .text "Authorization header required"⟩⟩ :=
  noAuthHeader_gives_401_and_no_upstream_call
    (Json.obj [("app_name", Json.str "myapp")]) ⟨"myapp", false, ⟨none, none, []⟩⟩
    [("app_name", "myapp")] ⟨"myapp", false, false, none⟩
    (.ok ()) (.response 200 (.ok Json.null)) (.response 200 (.ok Json.null))
    (by rfl) (by rfl)

/-- C2: whenever the upstream responds and its body parses as JSON, the
caller receives HTTP 200 with that JSON, whatever the upstream status
code was, on both operations. -/
theorem upstream_json_relayed_as_200
    (bytes : List Nat) (req : NewMachineRequest) (q : ListMachinesRequest)
    (st₁ st₂ : Nat) (j₁ j₂ : Json) (hv : validHeaderBytes bytes = true) :
    (create_machine (some bytes) req (.response st₁ (.ok j₁))).response =
      ⟨200, .json j₁⟩ ∧
    (list_machines (some bytes) q (.ok ()) (.response st₂ (.ok j₂))).response =
      ⟨200, .json j₂⟩ := by
  rw [create_machine_eq _ _ _ hv, list_machines_eq _ _ _ hv]
  exact ⟨rfl, rfl⟩

/-- Witness for C2: an upstream 404 with a JSON error body comes back to
the caller as a 200 carrying the same JSON. -/
theorem upstream_json_relayed_as_200_witness :
    (create_machine (some [66]) ⟨"myapp", false, ⟨none, none, []⟩⟩
        (.response 404 (.ok (Json.obj [("error", Json.str "not found")])))).response =
      ⟨200, .json (Json.obj [("error", Json.str "not found")])⟩ ∧
    (list_machines (some [66]) ⟨"myapp", false, false, none⟩ (.ok ())
        (.response 404 (.ok (Json.obj [("error", Json.str "not found")])))).response =
      ⟨200, .json (Json.obj [("error", Json.str "not found")])⟩ :=
  upstream_json_relayed_as_200 [66] ⟨"myapp", false, ⟨none, none, []⟩⟩
    ⟨"myapp", false, false, none⟩ 404 404
    (Json.obj [("error", Json.str "not found")])
    (Json.obj [("error", Json.str "not found")]) (by decide)

/-- C4: on every listing request that reaches the upstream, the appended
query pairs contain `include_deleted=true` iff the inbound flag was true,
contain `region=v` iff that region was supplied, and are empty when both
are absent/false. -/
theorem list_query_pairs_characterization
    (bytes : List Nat) (q : ListMachinesRequest) (u : UpstreamOutcome)
    (hv : validHeaderBytes bytes = true) :
    ∃ ob, (list_machines (some bytes) q (.ok ()) u).upstreamCall = some ob ∧
      (("include_deleted", "true") ∈ ob.queryPairs ↔ q.include_deleted = true) ∧
      (∀ v, (("region", v) ∈ ob.queryPairs ↔ q.region = some v)) ∧
      (q.include_deleted = false → q.region = none → ob.queryPairs = []) := by
  refine ⟨listOutbound bytes q, ?_, ?_, ?_, ?_⟩
  · rw [list_machines_eq _ _ _ hv]
  · rcases q with ⟨app, priv, inc, reg⟩
    cases inc <;> rcases reg with _ | r <;>
      simp [listOutbound, listQueryPairs]
  · intro v
    rcases q with ⟨app, priv, inc, reg⟩
    cases inc <;> rcases reg with _ | r <;>
      simp [listOutbound, listQueryPairs, eq_comm]
  · intro hinc hreg
    rcases q with ⟨app, priv, inc, reg⟩
    cases hinc
    cases hreg
    simp [listOutbound, listQueryPairs]

/-- Witness for C4 at a concrete listing request with both filters set. -/
theorem list_query_pairs_witness :
    ∃ ob, (list_machines (some [66]) ⟨"myapp", false, true, some "iad"⟩ (.ok ())
        (.response 200 (.ok Json.null))).upstreamCall = some ob ∧
      (("include_deleted", "true") ∈ ob.queryPairs ↔
        (⟨"myapp", false, true, some "iad"⟩ : ListMachinesRequest).include_deleted = true) ∧
      (∀ v, (("region", v) ∈ ob.queryPairs ↔
        (⟨"myapp", false, true, some "iad"⟩ : ListMachinesRequest).region = some v)) ∧
      ((⟨"myapp", false, true, some "iad"⟩ : ListMachinesRequest).include_deleted = false →
        (⟨"myapp", false, true, some "iad"⟩ : ListMachinesRequest).region = none →
        ob.queryPairs = []) :=
  list_query_pairs_characterization [66] ⟨"myapp", false, true, some "iad"⟩
    (.response 200 (.ok Json.null)) (by decide)

/-- C5: on both operations, whenever an upstream request is attempted for
an inbound request carrying an authorization header, the outbound
authorization header holds exactly the inbound credential bytes. -/
theorem authorization_forwarded_verbatim
    (bytes : List Nat) (rawBody : Except String Json)
    (params : List (String × String)) (urlParsed : Except String Unit)
    (u₁ u₂ : UpstreamOutcome) (ob₁ ob₂ : OutboundRequest)
    (h₁ : (create_machine_route (some bytes) rawBody u₁).upstreamCall = some ob₁)
    (h₂ : (list_machines_route (some bytes) params urlParsed u₂).upstreamCall =
      some ob₂) :
    ob₁.headers.authorization = bytes ∧ ob₂.headers.authorization = bytes := by
  constructor
  · rw [create_route_call_headers bytes rawBody u₁ ob₁ h₁]
  · rw [list_route_call_headers bytes params urlParsed u₂ ob₂ h₂]

/-- Witness for C5 at concrete requests on both operations. -/
theorem authorization_forwarded_verbatim_witness :
    (OutboundRequest.headers ⟨.post, "https://api.machines.dev/v1/apps/myapp/machines",
        [], ⟨[66], "application/json"⟩,
        some (Json.obj [("name", Json.null), ("region", Json.null)])⟩).authorization =
      [66] ∧
    (OutboundRequest.headers ⟨.get, "https://api.machines.dev/v1/apps/myapp/machines",
        [], ⟨[66], "application/json"⟩, none⟩).authorization = [66] :=
  authorization_forwarded_verbatim [66]
    (.ok (Json.obj [("app_name", Json.str "myapp")]))
    [("app_name", "myapp")] (.ok ())
    (.response 200 (.ok Json.null)) (.response 200 (.ok Json.null))
    ⟨.post, "https://api.machines.dev/v1/apps/myapp/machines", [],
      ⟨[66], "application/json"⟩,
      some (Json.obj [("name", Json.null), ("region", Json.null)])⟩
    ⟨.get, "https://api.machines.dev/v1/apps/myapp/machines", [],
      ⟨[66], "application/json"⟩, none⟩
    (by rfl) (by rfl)

/-- C6: on both operations, the outbound URL is rooted at the fixed
internal address when the use-private-api flag is true and at the fixed
public address otherwise. -/
theorem upstream_host_selection
    (bytes : List Nat) (req : NewMachineRequest) (q : ListMachinesRequest)
    (u₁ u₂ : UpstreamOutcome) (hv : validHeaderBytes bytes = true) :
    ∃ ob₁ ob₂,
      (create_machine (some bytes) req u₁).upstreamCall = some ob₁ ∧
      (list_machines (some bytes) q (.ok ()) u₂).upstreamCall = some ob₂ ∧
      ob₁.url = (if req.use_private_api then privateApiHost else publicApiHost) ++
        "/v1/apps/" ++ req.app_name ++ "/machines" ∧
      ob₂.url = (if q.use_private_api then privateApiHost else publicApiHost) ++
        "/v1/apps/" ++ q.app_name ++ "/machines" := by
  refine ⟨createOutbound bytes req, listOutbound bytes q, ?_, ?_, ?_, ?_⟩
  · rw [create_machine_eq _ _ _ hv]
  · rw [list_machines_eq _ _ _ hv]
  · simp [createOutbound, apiHostname]
  · simp [listOutbound, apiHostname]

/-- Witness for C6: a private-API creation and a public-API listing. -/
theorem upstream_host_selection_witness :
    ∃ ob₁ ob₂,
      (create_machine (some [66]) ⟨"myapp", true, ⟨none, none, []⟩⟩
        (.response 200 (.ok Json.null))).upstreamCall = some ob₁ ∧
      (list_machines (some [66]) ⟨"myapp", false, false, none⟩ (.ok ())
        (.response 200 (.ok Json.null))).upstreamCall = some ob₂ ∧
      ob₁.url = privateApiHost ++ "/v1/apps/" ++ "myapp" ++ "/machines" ∧
      ob₂.url = publicApiHost ++ "/v1/apps/" ++ "myapp" ++ "/machines" :=
  upstream_host_selection [66] ⟨"myapp", true, ⟨none, none, []⟩⟩
    ⟨"myapp", false, false, none⟩
    (.response 200 (.ok Json.null)) (.response 200 (.ok Json.null)) (by decide)

/-- C7: credential bytes that cannot be re-encoded as a header value give
HTTP 500 with the encoder's diagnostic on either operation, and a URL
parse failure on the listing operation gives HTTP 500 with the parse
diagnostic; in each case no upstream call is made. -/
theorem internal_condition_500_no_call
    (badBytes goodBytes : List Nat) (req : NewMachineRequest)
    (q₁ q₂ : ListMachinesRequest) (urlParsed : Except String Unit)
    (e : String) (u₁ u₂ u₃ : UpstreamOutcome)
    (hbad : validHeaderBytes badBytes = false)
    (hgood : validHeaderBytes goodBytes = true) :
    create_machine (some badBytes) req u₁ =
      ⟨none, ⟨500, .text "failed to parse header value"⟩⟩ ∧
    list_machines (some badBytes) q₁ urlParsed u₂ =
      ⟨none, ⟨500, .text "failed to parse header value"⟩⟩ ∧
    list_machines (some goodBytes) q₂ (.error e) u₃ =
      ⟨none, ⟨500, .text ("Failed to parse URL: " ++ e)⟩⟩ :=
  ⟨create_machine_invalid_bytes _ _ _ hbad,
   list_machines_invalid_bytes _ _ _ _ hbad,
   list_machines_bad_url _ _ _ _ hgood⟩

/-- Witness for C7: a control byte in the credential, and a failed URL
parse, at concrete requests. -/
theorem internal_condition_witness :
    create_machine (some [10]) ⟨"myapp", false, ⟨none, none, []⟩⟩
        (.response 200 (.ok Json.null)) =
      ⟨none, ⟨500, .text "failed to parse header value"⟩⟩ ∧
    list_machines (some [10]) ⟨"myapp", false, false, none⟩ (.ok ())
        (.response 200 (.ok Json.null)) =
      ⟨none, ⟨500, .text "failed to parse header value"⟩⟩ ∧
    list_machines (some [66]) ⟨"myapp", false, false, none⟩ (.error "empty host")
        (.response 200 (.ok Json.null)) =
      ⟨none, ⟨500, .text ("Failed to parse URL: " ++ "empty host")⟩⟩ :=
  internal_condition_500_no_call [10] [66] ⟨"myapp", false, ⟨none, none, []⟩⟩
    ⟨"myapp", false, false, none⟩ ⟨"myapp", false, false, none⟩ (.ok ())
    "empty host" (.response 200 (.ok Json.null)) (.response 200 (.ok Json.null))
    (.response 200 (.ok Json.null)) (by decide) (by decide)

/-- Spec-side rendering of claim C3's description of the outbound
creation body: the input configuration object with `app_name` and
`use_private_api` excluded and every other field preserved. -/
def specOutboundCreateFields (fields : JsonFields) : JsonFields :=
  fields.filter (fun kv => !(["app_name", "use_private_api"].contains kv.1))

/-- Counterexample to C3 as stated: for the valid creation body
`{"app_name":"a"}` the outbound body is `{"name":null,"region":null}`,
which is not JSON-equivalent (not a permutation of the fields) to the
input with `app_name` and `use_private_api` excluded, i.e. `{}`. -/
theorem create_body_counterexample :
    ((create_machine_route (some [66]) (.ok (Json.obj [("app_name", Json.str "a")]))
        (.response 200 (.ok Json.null))).upstreamCall.map
      (fun ob => ob.body)) =
      some (some (Json.obj [("name", Json.null), ("region", Json.null)])) ∧
    ¬ ((([("name", Json.null), ("region", Json.null)] : JsonFields)).Perm
        (specOutboundCreateFields [("app_name", Json.str "a")])) := by
  refine ⟨rfl, fun h => ?_⟩
  have hlen := h.length_eq
  simp [specOutboundCreateFields] at hlen

/-- Spec-side rendering of the amended claim C3: the input configuration
with `app_name` and `use_private_api` excluded, except that the `name` and
`region` keys are always present, carrying the input value when supplied
and `null` when absent; every other field is preserved. -/
def specOutboundCreateFieldsAmended (fields : JsonFields) : JsonFields :=
  ("name", (List.lookup "name" fields).getD Json.null) ::
  ("region", (List.lookup "region" fields).getD Json.null) ::
  fields.filter (fun kv => !(machineKnownKeys.contains kv.1))

/-- C3 amended: for every valid creation request, the outbound body is the
input configuration with `app_name` and `use_private_api` excluded, with
`name` and `region` always present (input value when supplied, `null` when
absent) and all other fields, recognized and unrecognized alike, preserved
without loss. -/
theorem create_body_amended
    (bytes : List Nat) (fields : JsonFields) (req : NewMachineRequest)
    (u : UpstreamOutcome)
    (hd : deserNewMachineRequest (Json.obj fields) = some req)
    (hv : validHeaderBytes bytes = true) :
    ((create_machine_route (some bytes) (.ok (Json.obj fields)) u).upstreamCall.map
      (fun ob => ob.body)) =
      some (some (Json.obj (specOutboundCreateFieldsAmended fields))) := by
  simp only [create_machine_route, hd, create_machine_eq _ _ _ hv]
  simp [createOutbound, deser_config_serialization fields req hd,
    specOutboundCreateFieldsAmended]

/-- Witness for the amended C3 at a creation body that supplies `name`
and an unrecognized field but omits `region`. -/
theorem create_body_amended_witness :
    deserNewMachineRequest (Json.obj [("app_name", Json.str "myapp"),
        ("name", Json.str "m1"), ("cpus", Json.num 2)]) =
      some ⟨"myapp", false, ⟨some "m1", none, [("cpus", Json.num 2)]⟩⟩ ∧
    ((create_machine_route (some [66])
        (.ok (Json.obj [("app_name", Json.str "myapp"),
          ("name", Json.str "m1"), ("cpus", Json.num 2)]))
        (.response 200 (.ok Json.null))).upstreamCall.map
      (fun ob => ob.body)) =
      some (some (Json.obj (specOutboundCreateFieldsAmended
        [("app_name", Json.str "myapp"), ("name", Json.str "m1"),
         ("cpus", Json.num 2)]))) :=
  ⟨by rfl,
   create_body_amended [66]
    [("app_name", Json.str "myapp"), ("name", Json.str "m1"), ("cpus", Json.num 2)]
    ⟨"myapp", false, ⟨some "m1", none, [("cpus", Json.num 2)]⟩⟩
    (.response 200 (.ok Json.null)) (by rfl) (by decide)⟩

/-- Counterexample to C8 as stated: on a transport failure the caller's
body is not the raw error text; it is the error text behind the fixed
"API request failed: " label. -/
theorem upstream_error_body_counterexample :
    (create_machine (some [66]) ⟨"myapp", false, ⟨none, none, []⟩⟩
        (.transportError "connection refused")).response =
      ⟨500, .text ("API request failed: " ++ "connection refused")⟩ ∧
    (create_machine (some [66]) ⟨"myapp", false, ⟨none, none, []⟩⟩
        (.transportError "connection refused")).response.body ≠
      RespBody.text "connection refused" := by
  refine ⟨rfl, fun h => ?_⟩
  have h' : ("API request failed: " ++ "connection refused" : String) =
      "connection refused" := by injection h
  exact absurd h' (by decide)

/-- C8 amended: after translation succeeds, a transport failure yields
HTTP 500 whose plain-text body is the raw error text behind the
"API request failed: " label, an upstream body that fails to parse as
JSON yields HTTP 500 whose plain-text body is the raw error text behind
the "Failed to read response body: " label, and every other outcome is
the 200 relay; this holds on both operations. -/
theorem forwarding_path_responses
    (bytes : List Nat) (req : NewMachineRequest) (q : ListMachinesRequest)
    (st : Nat) (e : String) (j : Json) (hv : validHeaderBytes bytes = true) :
    (create_machine (some bytes) req (.transportError e)).response =
      ⟨500, .text ("API request failed: " ++ e)⟩ ∧
    (create_machine (some bytes) req (.response st (.error e))).response =
      ⟨500, .text ("Failed to read response body: " ++ e)⟩ ∧
    (create_machine (some bytes) req (.response st (.ok j))).response =
      ⟨200, .json j⟩ ∧
    (list_machines (some bytes) q (.ok ()) (.transportError e)).response =
      ⟨500, .text ("API request failed: " ++ e)⟩ ∧
    (list_machines (some bytes) q (.ok ()) (.response st (.error e))).response =
      ⟨500, .text ("Failed to read response body: " ++ e)⟩ ∧
    (list_machines (some bytes) q (.ok ()) (.response st (.ok j))).response =
      ⟨200, .json j⟩ := by
  refine ⟨?_, ?_, ?_, ?_, ?_, ?_⟩ <;>
    first
      | (rw [create_machine_eq _ _ _ hv]; rfl)
      | (rw [list_machines_eq _ _ _ hv]; rfl)

/-- Witness for the amended C8 at concrete requests and error texts. -/
theorem forwarding_path_responses_witness :
    (create_machine (some [66]) ⟨"myapp", false, ⟨none, none, []⟩⟩
        (.transportError "connection refused")).response =
      ⟨500, .text ("API request failed: " ++ "connection refused")⟩ ∧
    (create_machine (some [66]) ⟨"myapp", false, ⟨none, none, []⟩⟩
        (.response 200 (.error "connection refused"))).response =
      ⟨500, .text ("Failed to read response body: " ++ "connection refused")⟩ ∧
    (create_machine (some [66]) ⟨"myapp", false, ⟨none, none, []⟩⟩
        (.response 200 (.ok Json.null))).response = ⟨200, .json Json.null⟩ ∧
    (list_machines (some [66]) ⟨"myapp", false, false, none⟩ (.ok ())
        (.transportError "connection refused")).response =
      ⟨500, .text ("API request failed: " ++ "connection refused")⟩ ∧
    (list_machines (some [66]) ⟨"myapp", false, false, none⟩ (.ok ())
        (.response 200 (.error "connection refused"))).response =
      ⟨500, .text ("Failed to read response body: " ++ "connection refused")⟩ ∧
    (list_machines (some [66]) ⟨"myapp", false, false, none⟩ (.ok ())
        (.response 200 (.ok Json.null))).response = ⟨200, .json Json.null⟩ :=
  forwarding_path_responses [66] ⟨"myapp", false, ⟨none, none, []⟩⟩
    ⟨"myapp", false, false, none⟩ 200 "connection refused" Json.null (by decide)

/-- C9: every outbound creation body carries the keys `name` and
`region`; when the input omitted one of them (no such key), the outbound
body carries it with value `null`. -/
theorem create_body_always_has_name_region
    (bytes : List Nat) (fields : JsonFields) (req : NewMachineRequest)
    (u : UpstreamOutcome)
    (hd : deserNewMachineRequest (Json.obj fields) = some req)
    (hv : validHeaderBytes bytes = true) :
    ∃ fs, ((create_machine_route (some bytes) (.ok (Json.obj fields)) u).upstreamCall.map
        (fun ob => ob.body)) = some (some (Json.obj fs)) ∧
      "name" ∈ fs.map Prod.fst ∧ "region" ∈ fs.map Prod.fst ∧
      (List.lookup "name" fields = none → ("name", Json.null) ∈ fs) ∧
      (List.lookup "region" fields = none → ("region", Json.null) ∈ fs) := by
  refine ⟨specOutboundCreateFieldsAmended fields, ?_, ?_, ?_, ?_, ?_⟩
  · simp only [create_machine_route, hd, create_machine_eq _ _ _ hv]
    simp [createOutbound, deser_config_serialization fields req hd,
      specOutboundCreateFieldsAmended]
  · simp [specOutboundCreateFieldsAmended]
  · simp [specOutboundCreateFieldsAmended]
  · intro h; simp [specOutboundCreateFieldsAmended, h]
  · intro h; simp [specOutboundCreateFieldsAmended, h]

/-- Witness for C9 at a creation body that omits both optional fields. -/
theorem create_body_null_keys_witness :
    ∃ fs, ((create_machine_route (some [66])
        (.ok (Json.obj [("app_name", Json.str "myapp")]))
        (.response 200 (.ok Json.null))).upstreamCall.map
        (fun ob => ob.body)) = some (some (Json.obj fs)) ∧
      "name" ∈ fs.map Prod.fst ∧ "region" ∈ fs.map Prod.fst ∧
      (List.lookup "name" [("app_name", Json.str "myapp")] = none →
        ("name", Json.null) ∈ fs) ∧
      (List.lookup "region" [("app_name", Json.str "myapp")] = none →
        ("region", Json.null) ∈ fs) :=
  create_body_always_has_name_region [66] [("app_name", Json.str "myapp")]
    ⟨"myapp", false, ⟨none, none, []⟩⟩ (.response 200 (.ok Json.null))
    (by rfl) (by decide)

/-- C10: a creation body that is not valid JSON or lacks `app_name`, and a
listing query lacking `app_name`, are rejected by the extractor with a 400
before the handler runs, whatever the authorization header; in particular
the response is never the 401 of the authorization check. -/
theorem undeserializable_request_rejected_400
    (auth : Option (List Nat)) (e : String) (jfields : JsonFields)
    (params : List (String × String)) (urlParsed : Except String Unit)
    (u₁ u₂ u₃ : UpstreamOutcome)
    (hj : List.lookup "app_name" jfields = none)
    (hp : List.lookup "app_name" params = none) :
    create_machine_route auth (.error e) u₁ =
      ⟨none, ⟨400, .text "Json deserialize error"⟩⟩ ∧
    create_machine_route auth (.ok (Json.obj jfields)) u₂ =
      ⟨none, ⟨400, .text "Json deserialize error"⟩⟩ ∧
    list_machines_route auth params urlParsed u₃ =
      ⟨none, ⟨400, .text "Query deserialize error"⟩⟩ ∧
    (create_machine_route auth (.ok (Json.obj jfields)) u₂).response.status ≠ 401 ∧
    (list_machines_route auth params urlParsed u₃).response.status ≠ 401 := by
  have h₂ : create_machine_route auth (.ok (Json.obj jfields)) u₂ =
      ⟨none, ⟨400, .text "Json deserialize error"⟩⟩ := by
    simp [create_machine_route, deserNewMachineRequest, hj]
  have h₃ : list_machines_route auth params urlParsed u₃ =
      ⟨none, ⟨400, .text "Query deserialize error"⟩⟩ := by
    simp [list_machines_route, deserListMachinesRequest, hp]
  refine ⟨rfl, h₂, h₃, ?_, ?_⟩
  · rw [h₂]; decide
  · rw [h₃]; decide

/-- Witness for C10 at concrete requests with no authorization header. -/
theorem undeserializable_request_witness :
    create_machine_route none (.error "syntax error") (.response 200 (.ok Json.null)) =
      ⟨none, ⟨400, .text "Json deserialize error"⟩⟩ ∧
    create_machine_route none (.ok (Json.obj [("foo", Json.bool true)]))
        (.response 200 (.ok Json.null)) =
      ⟨none, ⟨400, .text "Json deserialize error"⟩⟩ ∧
    list_machines_route none [("use_private_api", "true")] (.ok ())
        (.response 200 (.ok Json.null)) =
      ⟨none, ⟨400, .text "Query deserialize error"⟩⟩ ∧
    (create_machine_route none (.ok (Json.obj [("foo", Json.bool true)]))
        (.response 200 (.ok Json.null))).response.status ≠ 401 ∧
    (list_machines_route none [("use_private_api", "true")] (.ok ())
        (.response 200 (.ok Json.null))).response.status ≠ 401 :=
  undeserializable_request_rejected_400 none "syntax error"
    [("foo", Json.bool true)] [("use_private_api", "true")] (.ok ())
    (.response 200 (.ok Json.null)) (.response 200 (.ok Json.null))
    (.response 200 (.ok Json.null)) (by rfl) (by rfl)
